import Mathlib

/-!
# Verification of the sns-buster differential authorization-probing engine

A shallow embedding, in Lean 4, of the core of the `sns-buster` repository:

* the usefulness classifier `isUsefulMutation` (`src/mutations/compare.ts`),
* the mutation catalog (`src/mutations/strategies.ts`) over JS-object-like
  parameter maps,
* the mutation-change detector `didMutationChangeParams`,
* the action catalog (`src/actions/*`),
* ARN parsing (`src/utils/arn.ts`) and the nonexistent-topic generator,
* the differential prober loop `testActionMutations`
  (`src/mutations/runner.ts`), with async/await over `fetch` embedded as
  the `Except` monad (a rejected promise is `Except.error`) and the
  per-request HTTP log files embedded as an explicit trace of sent requests.

JS semantics embedded explicitly:

* `Record<string, string>` objects are association lists in insertion
  order; property assignment updates in place or appends, `delete`
  removes, spread copies.
* `string | undefined` values are `Option String`; the JS `||` fallback
  treats `undefined` and `""` as falsy.
* template-literal interpolation of `undefined` prints `"undefined"`.
-/

namespace SnsBuster

/-! ## JS-style values and parameter maps -/

/-- JS truthiness of a `string | undefined` value:
`undefined` and the empty string are falsy. -/
def jsTruthy : Option String → Bool
  | none => false
  | some s => s ≠ ""

/-- The JS `a || b` fallback on `string | undefined` values, as used for
`errorDetails?.code || error` in `compare.ts`. -/
def jsOr (a b : Option String) : Option String :=
  match a with
  | some s => if s = "" then b else some s
  | none => b

/-- JS template-literal rendering of a `string | undefined` value:
`${undefined}` prints `"undefined"`. -/
def jsShow : Option String → String
  | none => "undefined"
  | some s => s

/-- A `Record<string, string>` object: key/value pairs in insertion order. -/
abbrev ParamMap := List (String × String)

/-- `Object.keys(params)` (insertion order). -/
def keysOf (ps : ParamMap) : List String := ps.map Prod.fst

/-- `params[k]` as a `string | undefined` value (objects never hold
duplicate keys, so the first binding is the binding). -/
def lookup? : ParamMap → String → Option String
  | [], _ => none
  | p :: tl, k => if p.1 = k then some p.2 else lookup? tl k

/-- `result[k] = v`: update in place if the key exists, else append. -/
def setParam : ParamMap → String → String → ParamMap
  | [], k, v => [(k, v)]
  | p :: tl, k, v => if p.1 = k then (k, v) :: tl else p :: setParam tl k v

/-- `delete result[k]`. -/
def delParam : ParamMap → String → ParamMap
  | [], _ => []
  | p :: tl, k => if p.1 = k then delParam tl k else p :: delParam tl k

/-! ## Response outcomes (`compare.ts`) -/

/-- `ErrorDetails` from `src/output/summary.ts`: optional type, code and
message extracted from the XML error envelope. -/
structure ErrorDetails where
  type : Option String := none
  code : Option String := none
  message : Option String := none
  deriving Repr, DecidableEq

/-- `TopicResult` from `src/mutations/compare.ts`: status code, optional
extracted error code, optional structured error details. -/
structure TopicResult where
  status : Nat
  error : Option String := none
  errorDetails : Option ErrorDetails := none
  deriving Repr, DecidableEq

/-- The response triple handed to the classifier: outcomes from the
allowed, denied and nonexistent targets. -/
structure MutationInput where
  allowed : TopicResult
  denied : TopicResult
  nonexistent : TopicResult
  deriving Repr, DecidableEq

/-- `UsefulMutationResult` from `compare.ts`. -/
structure UsefulMutationResult where
  useful : Bool
  reason : String
  deriving Repr, DecidableEq

/-- `SAFE_PROBE_MUTATIONS` from `compare.ts`: `"actionName:mutationName"`
pairs whose requests return 200 without modifying data. -/
def SAFE_PROBE_MUTATIONS : List String :=
  ["UntagResource:nonexistent-tag-key", "RemovePermission:invalid-label"]

/-- `allowed.errorDetails?.code || allowed.error`: the error code the
classifier extracts from one topic outcome. -/
def topicCode (r : TopicResult) : Option String :=
  jsOr (r.errorDetails.bind ErrorDetails.code) r.error

/-- `isUsefulMutation` from `src/mutations/compare.ts`: the ordered
decision list classifying a response triple, with the optional
mutation/action names used only for the no-op-probe lookup. -/
def isUsefulMutation (mutation : MutationInput)
    (mutationName : Option String := none) (actionName : Option String := none) :
    UsefulMutationResult :=
  -- Category B: Safe no-op probe (200 success with no side effects)
  if jsTruthy mutationName && jsTruthy actionName &&
      SAFE_PROBE_MUTATIONS.contains
        (jsShow actionName ++ ":" ++ jsShow mutationName) &&
      mutation.allowed.status == 200 && mutation.denied.status == 403 then
    ⟨true, "No-op probe: 200 success with no side effects"⟩
  -- Rule 1: Allowed topic must NOT return 403
  else if mutation.allowed.status == 403 then
    ⟨false, "Allowed topic returned 403 (auth failed)"⟩
  -- Rule 2: Denied topic must return 403
  else if mutation.denied.status != 403 then
    if topicCode mutation.denied == topicCode mutation.allowed then
      ⟨false, "Pre-auth validation: all topics return \"" ++
        jsShow (topicCode mutation.allowed) ++ "\" (auth not checked)"⟩
    else
      ⟨false, "Denied topic returned " ++ toString mutation.denied.status ++ " " ++
        jsShow (topicCode mutation.denied) ++ ", expected 403"⟩
  -- Rule 3: nonexistent reproduces the allowed failure: pre-auth validation
  else if topicCode mutation.nonexistent == topicCode mutation.allowed &&
      mutation.nonexistent.status == mutation.allowed.status then
    ⟨false, "Pre-auth validation: nonexistent also returns \"" ++
      jsShow (topicCode mutation.allowed) ++ "\""⟩
  -- Rule 4: nonexistent 403/404 and allowed a non-403 4xx: safe probe
  else if (mutation.nonexistent.status == 403 || mutation.nonexistent.status == 404) &&
      mutation.allowed.status ≥ 400 && mutation.allowed.status < 500 &&
      mutation.allowed.status != 403 then
    ⟨true, "Safe probe: auth passed then \"" ++ jsShow (topicCode mutation.allowed) ++
      "\" (denied=403, nonexistent=" ++ toString mutation.nonexistent.status ++ ")"⟩
  -- Edge case: allowed succeeded but not a known safe probe
  else if mutation.allowed.status == 200 then
    ⟨false, "Allowed returned 200 but mutation not in safe probe list"⟩
  else
    ⟨false, "Inconclusive: allowed=" ++ toString mutation.allowed.status ++
      " denied=" ++ toString mutation.denied.status ++
      " nonexistent=" ++ toString mutation.nonexistent.status⟩


theorem c1_safe_probe (t : MutationInput) (mn an : Option String)
    (h1 : t.allowed.status ≠ 403) (h2 : t.denied.status = 403)
    (h3 : ¬(topicCode t.nonexistent = topicCode t.allowed ∧
      t.nonexistent.status = t.allowed.status))
    (h4 : t.nonexistent.status = 403 ∨ t.nonexistent.status = 404)
    (h5 : 400 ≤ t.allowed.status) (h6 : t.allowed.status < 500) :
    isUsefulMutation t mn an =
      ⟨true, "Safe probe: auth passed then \"" ++ jsShow (topicCode t.allowed) ++
        "\" (denied=403, nonexistent=" ++ toString t.nonexistent.status ++ ")"⟩ := by
  unfold isUsefulMutation
  split_ifs with g1 g2 g3 g4 g5 <;>
    simp_all [Bool.and_eq_true, Bool.or_eq_true, ne_eq, decide_eq_true_eq]

def c1Example : MutationInput :=
  { allowed := { status := 400, error := some "InvalidParameter" }
    denied := { status := 403, error := some "AuthorizationError" }
    nonexistent := { status := 403, error := some "AuthorizationError" } }

theorem c1_safe_probe_witness :
    isUsefulMutation c1Example none none =
      ⟨true, "Safe probe: auth passed then \"InvalidParameter\" (denied=403, nonexistent=403)"⟩ :=
  c1_safe_probe c1Example none none (by decide) (by decide) (by decide)
    (by decide) (by decide) (by decide)

theorem c2_noop_probe (t : MutationInput) (a m : String)
    (ha : a ≠ "") (hm : m ≠ "")
    (hlist : (a ++ ":" ++ m) ∈ SAFE_PROBE_MUTATIONS)
    (h200 : t.allowed.status = 200) (h403 : t.denied.status = 403) :
    isUsefulMutation t (some m) (some a) =
      ⟨true, "No-op probe: 200 success with no side effects"⟩ := by
  unfold isUsefulMutation
  have : SAFE_PROBE_MUTATIONS.contains (a ++ ":" ++ m) = true :=
    List.elem_eq_true_of_mem hlist
  simp [jsTruthy, jsShow, ha, hm, this, h200, h403]
  intro h
  exact absurd hlist h

theorem c2_noop_probe_witness :
    ("UntagResource" ++ ":" ++ "nonexistent-tag-key") ∈ SAFE_PROBE_MUTATIONS ∧
    isUsefulMutation
      ⟨⟨200, none, none⟩, ⟨403, some "AuthorizationError", none⟩, ⟨403, some "AuthorizationError", none⟩⟩
      (some "nonexistent-tag-key") (some "UntagResource") =
      ⟨true, "No-op probe: 200 success with no side effects"⟩ :=
  ⟨by decide,
   c2_noop_probe _ "UntagResource" "nonexistent-tag-key" (by decide) (by decide)
     (by decide) rfl rfl⟩

theorem c3_allowed_403_not_useful (t : MutationInput) (mn an : Option String)
    (h : t.allowed.status = 403) :
    (isUsefulMutation t mn an).useful = false := by
  unfold isUsefulMutation
  split_ifs with g1 g2 <;> simp_all [Bool.and_eq_true]

theorem c3_allowed_403_not_useful_witness :
    (isUsefulMutation
      ⟨⟨403, some "AuthorizationError", none⟩, ⟨403, some "AuthorizationError", none⟩,
        ⟨403, some "AuthorizationError", none⟩⟩
      (some "nonexistent-tag-key") (some "UntagResource")).useful = false :=
  c3_allowed_403_not_useful _ _ _ rfl

theorem c10_useful_implies_denied_403 (t : MutationInput) (mn an : Option String)
    (h : (isUsefulMutation t mn an).useful = true) : t.denied.status = 403 := by
  unfold isUsefulMutation at h
  split_ifs at h with g1 g2 g3 g4 g5 g6 g7 <;>
    simp_all [Bool.and_eq_true, Bool.or_eq_true]

theorem c10_witness : (isUsefulMutation c1Example none none).useful = true ∧
    c1Example.denied.status = 403 :=
  ⟨by decide, c10_useful_implies_denied_403 c1Example none none (by decide)⟩

def c4Example : MutationInput :=
  { allowed := { status := 400 }, denied := { status := 500 }, nonexistent := { status := 404 } }

theorem c4_counterexample :
    isUsefulMutation c4Example none none =
      ⟨false, "Pre-auth validation: all topics return \"undefined\" (auth not checked)"⟩ := by
  decide

theorem c4_amended (t : MutationInput) (mn an : Option String)
    (hA : t.allowed.status ≠ 403) (hD : t.denied.status ≠ 403)
    (hc1 : topicCode t.allowed = none) (hc2 : topicCode t.denied = none) :
    isUsefulMutation t mn an =
      ⟨false, "Pre-auth validation: all topics return \"undefined\" (auth not checked)"⟩ := by
  unfold isUsefulMutation
  split_ifs with g1 g2 g3 g4 <;>
    simp_all [Bool.and_eq_true, jsShow]

theorem c4_amended_witness :
    isUsefulMutation ⟨⟨400, none, none⟩, ⟨400, none, none⟩, ⟨400, none, none⟩⟩ none none =
      ⟨false, "Pre-auth validation: all topics return \"undefined\" (auth not checked)"⟩ :=
  c4_amended _ none none (by decide) (by decide) (by decide) (by decide)



/-! ## Regex fragments used by `strategies.ts`

The catalog only uses patterns of the form `pre \d+ post` (optionally
anchored at the end of the string), plus `String.startsWith`.  They are
embedded as explicit character-list matchers. -/

/-- `\d` -/
def isDigitCh (c : Char) : Bool := '0' ≤ c && c ≤ '9'

/-- Match a literal character sequence at the head; return the suffix. -/
def matchLit : List Char → List Char → Option (List Char)
  | [], l => some l
  | _ :: _, [] => none
  | p :: ps, c :: cs => if c == p then matchLit ps cs else none

/-- Consume a maximal (greedy) run of digits. -/
def dropDigits : List Char → List Char
  | [] => []
  | c :: cs => if isDigitCh c then dropDigits cs else c :: cs

/-- Match `pre \d+ post` at the head of `l`; return the suffix after the
matched span.  Greedy digits are exact here because every `post` used in
the catalog starts with a non-digit (or is empty). -/
def matchSpan (pre post : List Char) (l : List Char) : Option (List Char) :=
  match matchLit pre l with
  | none => none
  | some rest =>
    match rest with
    | [] => none
    | c :: cs => if isDigitCh c then matchLit post (dropDigits cs) else none

/-- Unanchored `k.match(/pre\d+post/)`: the span occurs somewhere in `l`. -/
def searchSpan (pre post : List Char) : List Char → Bool
  | [] => false
  | c :: cs => (matchSpan pre post (c :: cs)).isSome || searchSpan pre post cs

/-- End-anchored `k.match(/pre\d+post$/)`: some occurrence of the span
ends exactly at the end of the string. -/
def searchSpanEnd (pre post : List Char) : List Char → Bool
  | [] => false
  | c :: cs =>
    (match matchSpan pre post (c :: cs) with
     | some [] => true
     | _ => false) || searchSpanEnd pre post cs

/-- `k.replace(/pre\d+post/, repl)`: replace the first occurrence. -/
def replaceFirstSpan (pre post repl : List Char) : List Char → List Char
  | [] => []
  | c :: cs =>
    match matchSpan pre post (c :: cs) with
    | some rest => repl ++ rest
    | none => c :: replaceFirstSpan pre post repl cs

/-- `k.startsWith(pre)`. -/
def startsWithStr (pre k : String) : Bool := (matchLit pre.data k.data).isSome

/-- `/PublishBatchRequestEntries\.member\.\d+\.Message/` -/
def batchMsgPat (k : String) : Bool :=
  searchSpan "PublishBatchRequestEntries.member.".data ".Message".data k.data

/-- `/PublishBatchRequestEntries\.member\.\d+\.Id$/` -/
def batchIdPat (k : String) : Bool :=
  searchSpanEnd "PublishBatchRequestEntries.member.".data ".Id".data k.data

/-- `/Tags\.member\.\d+\.Key/` -/
def tagKeyPat (k : String) : Bool :=
  searchSpan "Tags.member.".data ".Key".data k.data

/-- `/Tags\.member\.\d+\.Value/` -/
def tagValuePat (k : String) : Bool :=
  searchSpan "Tags.member.".data ".Value".data k.data

/-- `/Tags\.member\.\d+\./` -/
def tagDotPat (k : String) : Bool :=
  searchSpan "Tags.member.".data ".".data k.data

/-- `/TagKeys\.member\.\d+/` -/
def tagKeysNumPat (k : String) : Bool :=
  searchSpan "TagKeys.member.".data [] k.data

/-- `k.replace(/Tags\.member\.\d+\./, 'Tags.member.0.')` -/
def replaceTagIdx (k : String) : String :=
  String.mk (replaceFirstSpan "Tags.member.".data ".".data "Tags.member.0.".data k.data)

/-- `k.replace(/TagKeys\.member\.\d+/, 'TagKeys.member.0')` -/
def replaceTagKeysIdx (k : String) : String :=
  String.mk (replaceFirstSpan "TagKeys.member.".data [] "TagKeys.member.0".data k.data)


/-! ## Mutation catalog (`src/mutations/strategies.ts`) -/

/-- `Mutation` from `strategies.ts`: name, description and a pure
transform `(params, topicArn) → params`. -/
structure Mutation where
  name : String
  description : String
  apply : ParamMap → String → ParamMap

/-- `'x'.repeat(200)` — exceeds the tag key limit (128). -/
def LONG_STRING_200 : String := String.mk (List.replicate 200 'x')

/-- `'x'.repeat(500)` — exceeds the tag value limit (256). -/
def LONG_STRING_500 : String := String.mk (List.replicate 500 'x')

/-- `'x'.repeat(1000)`. -/
def LONG_STRING_1000 : String := String.mk (List.replicate 1000 'x')

/-- Remove the Action parameter. -/
def removeAction : Mutation where
  name := "remove-action"
  description := "Remove Action parameter"
  apply := fun params _ => delParam params "Action"

/-- Remove the Version parameter. -/
def removeVersion : Mutation where
  name := "remove-version"
  description := "Remove Version parameter"
  apply := fun params _ => delParam params "Version"

/-- Change Endpoint from URL to ARN format (if the Endpoint param is truthy). -/
def endpointToArn : Mutation where
  name := "endpoint-to-arn"
  description := "Change Endpoint parameter to ARN format"
  apply := fun params topicArn =>
    if !jsTruthy (lookup? params "Endpoint") then params
    else setParam params "Endpoint" topicArn

/-- Remove Message parameter (if exists). -/
def removeMessage : Mutation where
  name := "remove-message"
  description := "Remove Message parameter"
  apply := fun params _ =>
    match lookup? params "Message" with
    | none => params
    | some _ => delParam params "Message"

/-- Empty Message parameter (if exists). -/
def emptyMessage : Mutation where
  name := "empty-message"
  description := "Set Message to empty string"
  apply := fun params _ =>
    match lookup? params "Message" with
    | none => params
    | some _ => setParam params "Message" ""

/-- Remove batch entry Message (if exists). -/
def removeBatchMessage : Mutation where
  name := "remove-batch-message"
  description := "Remove Message from batch entry"
  apply := fun params _ =>
    match (keysOf params).find? batchMsgPat with
    | none => params
    | some msgKey => delParam params msgKey

/-- Empty batch entry Message (if exists). -/
def emptyBatchMessage : Mutation where
  name := "empty-batch-message"
  description := "Set batch entry Message to empty string"
  apply := fun params _ =>
    match (keysOf params).find? batchMsgPat with
    | none => params
    | some msgKey => setParam params msgKey ""

/-- Remove batch entry Id (if exists). -/
def removeBatchId : Mutation where
  name := "remove-batch-id"
  description := "Remove Id from batch entry"
  apply := fun params _ =>
    match (keysOf params).find? batchIdPat with
    | none => params
    | some idKey => delParam params idKey

/-- Empty batch entry Id (if exists). -/
def emptyBatchId : Mutation where
  name := "empty-batch-id"
  description := "Set batch entry Id to empty string"
  apply := fun params _ =>
    match (keysOf params).find? batchIdPat with
    | none => params
    | some idKey => setParam params idKey ""

/-- Invalid `ActionName.member.*` (if exists). -/
def invalidActionName : Mutation where
  name := "invalid-action-name"
  description := "Use invalid action name in ActionName parameter"
  apply := fun params _ =>
    match (keysOf params).find? (startsWithStr "ActionName.member.") with
    | none => params
    | some actionKey => setParam params actionKey "NotARealAction"

/-- Remove `ActionName.member.*` (if exists). -/
def removeActionName : Mutation where
  name := "remove-action-name"
  description := "Remove ActionName parameter"
  apply := fun params _ =>
    if ((keysOf params).filter (startsWithStr "ActionName.member.")).isEmpty then params
    else ((keysOf params).filter (startsWithStr "ActionName.member.")).foldl delParam params

/-- Invalid Label (if exists) - use non-existent label. -/
def invalidLabel : Mutation where
  name := "invalid-label"
  description := "Use non-existent permission label"
  apply := fun params _ =>
    match lookup? params "Label" with
    | none => params
    | some _ => setParam params "Label" "non-existent-permission-label-12345"

/-- Empty Label (if exists). -/
def emptyLabel : Mutation where
  name := "empty-label"
  description := "Set Label to empty string"
  apply := fun params _ =>
    match lookup? params "Label" with
    | none => params
    | some _ => setParam params "Label" ""

/-- Remove Label parameter (if exists). -/
def removeLabel : Mutation where
  name := "remove-label"
  description := "Remove Label parameter"
  apply := fun params _ =>
    match lookup? params "Label" with
    | none => params
    | some _ => delParam params "Label"

/-- Label with special characters (if exists). -/
def specialCharLabel : Mutation where
  name := "special-char-label"
  description := "Set Label with special characters"
  apply := fun params _ =>
    match lookup? params "Label" with
    | none => params
    | some _ => setParam params "Label" "../../../etc/passwd"

/-- Invalid AttributeName (if exists). -/
def invalidAttributeName : Mutation where
  name := "invalid-attribute-name"
  description := "Use invalid AttributeName"
  apply := fun params _ =>
    match lookup? params "AttributeName" with
    | none => params
    | some _ => setParam params "AttributeName" "NotARealAttribute"

/-- Remove AttributeName (if exists). -/
def removeAttributeName : Mutation where
  name := "remove-attribute-name"
  description := "Remove AttributeName parameter"
  apply := fun params _ =>
    match lookup? params "AttributeName" with
    | none => params
    | some _ => delParam params "AttributeName"

/-- Empty tag key (if `Tags.member.*.Key` exists). -/
def emptyTagKey : Mutation where
  name := "empty-tag-key"
  description := "Set tag key to empty string"
  apply := fun params _ =>
    match (keysOf params).find? tagKeyPat with
    | none => params
    | some tagKeyParam => setParam params tagKeyParam ""

/-- Remove tag key (if `Tags.member.*.Key` exists). -/
def removeTagKey : Mutation where
  name := "remove-tag-key"
  description := "Remove tag key parameter"
  apply := fun params _ =>
    if ((keysOf params).filter tagKeyPat).isEmpty then params
    else ((keysOf params).filter tagKeyPat).foldl delParam params

/-- Non-existent tag key (GUID-like key for `Tags.member.*.Key`). -/
def nonExistentTag : Mutation where
  name := "nonexistent-tag"
  description := "Set Tags.member.*.Key to a non-existent GUID-like key"
  apply := fun params _ =>
    match (keysOf params).find? tagKeyPat with
    | none => params
    | some tagKeyParam =>
        setParam params tagKeyParam "nonexistent-key-a1b2c3d4-e5f6-7890-abcd-ef1234567890"

/-- Remove all `Tags.member.*` params (if any exist). -/
def removeTags : Mutation where
  name := "remove-tags"
  description := "Remove all Tags.member.* params"
  apply := fun params _ =>
    if ((keysOf params).filter (startsWithStr "Tags.member.")).isEmpty then params
    else ((keysOf params).filter (startsWithStr "Tags.member.")).foldl delParam params

/-- Zero index for Tags (use member.0 instead of member.1). -/
def zeroIndexTag : Mutation where
  name := "zero-index-tag"
  description := "Use Tags.member.0 instead of member.1"
  apply := fun params _ =>
    if ((keysOf params).filter tagDotPat).isEmpty then params
    else ((keysOf params).filter tagDotPat).foldl
      (fun acc k => delParam (setParam acc (replaceTagIdx k) ((lookup? acc k).getD "")) k)
      params

/-- Remove tag value field (keep `.Key`, remove `.Value`). -/
def removeTagValue : Mutation where
  name := "remove-tag-value"
  description := "Remove Tags.member.*.Value param (keep Key)"
  apply := fun params _ =>
    if ((keysOf params).filter tagValuePat).isEmpty then params
    else ((keysOf params).filter tagValuePat).foldl delParam params

/-- Remove `TagKeys.member.*` (if exists). -/
def removeTagKeys : Mutation where
  name := "remove-tag-keys"
  description := "Remove TagKeys parameter"
  apply := fun params _ =>
    if ((keysOf params).filter (startsWithStr "TagKeys.member.")).isEmpty then params
    else ((keysOf params).filter (startsWithStr "TagKeys.member.")).foldl delParam params

/-- Empty `TagKeys.member.*` value (if exists). -/
def emptyTagKeys : Mutation where
  name := "empty-tag-keys"
  description := "Set TagKeys.member.1 to empty string"
  apply := fun params _ =>
    match (keysOf params).find? (startsWithStr "TagKeys.member.") with
    | none => params
    | some tagKeysParam => setParam params tagKeysParam ""

/-- Non-existent `TagKeys.member.*` value (GUID-like key that doesn't exist). -/
def nonExistentTagKey : Mutation where
  name := "nonexistent-tag-key"
  description := "Set TagKeys to a non-existent GUID-like key"
  apply := fun params _ =>
    match (keysOf params).find? (startsWithStr "TagKeys.member.") with
    | none => params
    | some tagKeysParam =>
        setParam params tagKeysParam "nonexistent-key-a1b2c3d4-e5f6-7890-abcd-ef1234567890"

/-- Long `TagKeys.member.*` value (exceeds 128 char limit). -/
def longTagKeys : Mutation where
  name := "long-tag-keys"
  description := "Set TagKeys.member.* to exceed max length (128)"
  apply := fun params _ =>
    match (keysOf params).find? (startsWithStr "TagKeys.member.") with
    | none => params
    | some tagKeysParam => setParam params tagKeysParam LONG_STRING_200

/-- Zero index for TagKeys (use member.0 instead of member.1). -/
def zeroIndexTagKey : Mutation where
  name := "zero-index-tag-key"
  description := "Use TagKeys.member.0 instead of member.1"
  apply := fun params _ =>
    if ((keysOf params).filter tagKeysNumPat).isEmpty then params
    else ((keysOf params).filter tagKeysNumPat).foldl
      (fun acc k => delParam (setParam acc (replaceTagKeysIdx k) ((lookup? acc k).getD "")) k)
      params

/-- Invalid Protocol (if exists). -/
def invalidProtocol : Mutation where
  name := "invalid-protocol"
  description := "Use invalid Protocol value"
  apply := fun params _ =>
    match lookup? params "Protocol" with
    | none => params
    | some _ => setParam params "Protocol" "not-a-protocol"

/-- Remove Protocol (if exists). -/
def removeProtocol : Mutation where
  name := "remove-protocol"
  description := "Remove Protocol parameter"
  apply := fun params _ =>
    match lookup? params "Protocol" with
    | none => params
    | some _ => delParam params "Protocol"

/-- Invalid JSON for DataProtectionPolicy (if exists). -/
def invalidJsonPolicy : Mutation where
  name := "invalid-json-policy"
  description := "Set DataProtectionPolicy to invalid JSON"
  apply := fun params _ =>
    match lookup? params "DataProtectionPolicy" with
    | none => params
    | some _ => setParam params "DataProtectionPolicy" "\x7bnot valid json"

/-- Empty JSON object for DataProtectionPolicy (if exists). -/
def emptyJsonPolicy : Mutation where
  name := "empty-json-policy"
  description := "Set DataProtectionPolicy to empty JSON object"
  apply := fun params _ =>
    match lookup? params "DataProtectionPolicy" with
    | none => params
    | some _ => setParam params "DataProtectionPolicy" "\x7b\x7d"

/-- Invalid policy structure (valid JSON but wrong schema). -/
def invalidPolicyStructure : Mutation where
  name := "invalid-policy-structure"
  description := "Set DataProtectionPolicy to valid JSON with invalid structure"
  apply := fun params _ =>
    match lookup? params "DataProtectionPolicy" with
    | none => params
    | some _ =>
        setParam params "DataProtectionPolicy"
          "\x7b\"invalid\":\"structure\",\"foo\":\"bar\"\x7d"

/-- Remove DataProtectionPolicy parameter (if exists). -/
def removeDataProtectionPolicy : Mutation where
  name := "remove-data-protection-policy"
  description := "Remove DataProtectionPolicy parameter"
  apply := fun params _ =>
    match lookup? params "DataProtectionPolicy" with
    | none => params
    | some _ => delParam params "DataProtectionPolicy"

/-- Tag key too long (max 128 chars). -/
def longTagKey : Mutation where
  name := "long-tag-key"
  description := "Set tag key to exceed max length (128)"
  apply := fun params _ =>
    match (keysOf params).find? tagKeyPat with
    | none => params
    | some tagKeyParam => setParam params tagKeyParam LONG_STRING_200

/-- Tag value too long (max 256 chars). -/
def longTagValue : Mutation where
  name := "long-tag-value"
  description := "Set tag value to exceed max length (256)"
  apply := fun params _ =>
    match (keysOf params).find? tagValuePat with
    | none => params
    | some tagValueParam => setParam params tagValueParam LONG_STRING_500

/-- Label too long (if exists). -/
def longLabel : Mutation where
  name := "long-label"
  description := "Set Label to exceed reasonable length"
  apply := fun params _ =>
    match lookup? params "Label" with
    | none => params
    | some _ => setParam params "Label" LONG_STRING_200

/-- AttributeValue too long (if exists). -/
def longAttributeValue : Mutation where
  name := "long-attribute-value"
  description := "Set AttributeValue to very long string"
  apply := fun params _ =>
    match lookup? params "AttributeValue" with
    | none => params
    | some _ => setParam params "AttributeValue" LONG_STRING_1000

/-- Invalid SignatureVersion value (only valid values are "1" or "2"). -/
def invalidSignatureVersion : Mutation where
  name := "invalid-signature-version"
  description := "Set SignatureVersion to invalid value (99)"
  apply := fun params _ =>
    if lookup? params "AttributeName" != some "SignatureVersion" then params
    else setParam params "AttributeValue" "99"

/-- Endpoint too long (if exists). -/
def longEndpoint : Mutation where
  name := "long-endpoint"
  description := "Set Endpoint to very long URL"
  apply := fun params _ =>
    match lookup? params "Endpoint" with
    | none => params
    | some _ =>
        setParam params "Endpoint" ("https://example.com/" ++ String.mk (List.replicate 2000 'x'))

/-- Subject too long for Publish (max 100 chars); only applies to the
Publish action. -/
def longSubject : Mutation where
  name := "long-subject"
  description := "Add Subject parameter exceeding max length (100)"
  apply := fun params _ =>
    if lookup? params "Action" != some "Publish" then params
    else setParam params "Subject" LONG_STRING_200

/-- Default set of mutations to try (structure-based).  The source
intentionally does NOT mutate TopicArn/ResourceArn because the service
needs the correct target ARN to perform authorization checks. -/
def defaultMutations : List Mutation := [removeAction, removeVersion]

/-- Parameter-based mutations (applied if the param exists in the request). -/
def parameterMutations : List Mutation :=
  [removeMessage, emptyMessage,
   removeBatchMessage, emptyBatchMessage, removeBatchId, emptyBatchId,
   endpointToArn, longEndpoint,
   invalidProtocol, removeProtocol,
   invalidActionName, removeActionName,
   invalidLabel, emptyLabel, removeLabel, specialCharLabel, longLabel,
   invalidAttributeName, removeAttributeName, longAttributeValue, invalidSignatureVersion,
   nonExistentTag, removeTags, emptyTagKey, longTagKey, zeroIndexTag,
   removeTagKey, removeTagValue, longTagValue,
   nonExistentTagKey, removeTagKeys, emptyTagKeys, longTagKeys, zeroIndexTagKey,
   longSubject,
   invalidJsonPolicy, emptyJsonPolicy, invalidPolicyStructure, removeDataProtectionPolicy]

/-- `getMutationsForAction`: default mutations plus all parameter-based
mutations; parameter mutations return unchanged params if the param
doesn't exist. -/
def getMutationsForAction (_actionName : String) : List Mutation :=
  defaultMutations ++ parameterMutations

/-- Lexicographic code-unit comparison, the default `Array.sort` order
(the ASCII keys compared here make UTF-16 and code-point order agree). -/
def charListLe : List Char → List Char → Bool
  | [], _ => true
  | _ :: _, [] => false
  | a :: as, b :: bs => if a < b then true else if b < a then false else charListLe as bs

/-- `a <= b` in the `Array.sort` comparison order. -/
def strLe (a b : String) : Bool := charListLe a.data b.data

/-- Insertion of a string into a sorted list. -/
def insertSorted (s : String) : List String → List String
  | [] => [s]
  | t :: ts => if strLe s t then s :: t :: ts else t :: insertSorted s ts

/-- `[...keys].sort()`. -/
def sortStrings : List String → List String
  | [] => []
  | s :: ss => insertSorted s (sortStrings ss)

/-- `didMutationChangeParams` from `strategies.ts`: true if the sorted key
lists differ or any shared key's value differs. -/
def didMutationChangeParams (original mutated : ParamMap) : Bool :=
  if (sortStrings (keysOf original)).length != (sortStrings (keysOf mutated)).length then true
  else if String.intercalate "," (sortStrings (keysOf original)) !=
      String.intercalate "," (sortStrings (keysOf mutated)) then true
  else (sortStrings (keysOf original)).any
    (fun key => lookup? original key != lookup? mutated key)


/-! ## Parameter-map lemmas -/

theorem lookup?_delParam_of_ne (ps : ParamMap) (k k' : String) (h : k' ≠ k) :
    lookup? (delParam ps k) k' = lookup? ps k' := by
  have hk : ¬(k = k') := fun e => h e.symm
  induction ps with
  | nil => rfl
  | cons p tl ih =>
    by_cases hp : p.1 = k
    · have hq : ¬(p.1 = k') := by rw [hp]; exact hk
      simp [delParam, lookup?, hp, hq, hk, ih]
    · by_cases hq : p.1 = k'
      · simp [delParam, lookup?, hp, hq, h]
      · simp [delParam, lookup?, hp, hq, ih]

theorem delParam_of_not_contains (ps : ParamMap) (k : String)
    (h : (keysOf ps).contains k = false) : delParam ps k = ps := by
  induction ps with
  | nil => rfl
  | cons p tl ih =>
    simp only [keysOf, List.map_cons, List.contains_cons, Bool.or_eq_false_iff,
      beq_eq_false_iff_ne, ne_eq] at h
    have h1 : ¬(p.1 = k) := fun e => h.1 e.symm
    simp [delParam, h1, ih (by simpa [keysOf] using h.2)]

theorem lookup?_setParam_of_ne (ps : ParamMap) (k v k' : String) (h : k' ≠ k) :
    lookup? (setParam ps k v) k' = lookup? ps k' := by
  have hk : ¬(k = k') := fun e => h e.symm
  induction ps with
  | nil => simp [setParam, lookup?, hk]
  | cons p tl ih =>
    by_cases hp : p.1 = k
    · have hq : ¬(p.1 = k') := by rw [hp]; exact hk
      simp [setParam, lookup?, hp, hq, hk]
    · by_cases hq : p.1 = k'
      · simp [setParam, lookup?, hp, hq, h]
      · simp [setParam, lookup?, hp, hq, ih]

theorem lookup?_foldl_delParam (ks : List String) (ps : ParamMap) (k' : String)
    (h : ∀ k ∈ ks, k' ≠ k) :
    lookup? (ks.foldl delParam ps) k' = lookup? ps k' := by
  induction ks generalizing ps with
  | nil => rfl
  | cons a tl ih =>
    simp only [List.foldl_cons]
    rw [ih _ (fun k hk => h k (List.mem_cons_of_mem a hk)),
      lookup?_delParam_of_ne _ _ _ (h a (List.mem_cons_self a tl))]

theorem lookup?_zeroFold (f : String → String) (ks : List String) (ps : ParamMap)
    (k' : String) (h1 : ∀ k ∈ ks, k' ≠ k) (h2 : ∀ k ∈ ks, k' ≠ f k) :
    lookup? (ks.foldl
      (fun acc k => delParam (setParam acc (f k) ((lookup? acc k).getD "")) k) ps) k' =
    lookup? ps k' := by
  induction ks generalizing ps with
  | nil => rfl
  | cons a tl ih =>
    simp only [List.foldl_cons]
    rw [ih _ (fun k hk => h1 k (List.mem_cons_of_mem a hk))
        (fun k hk => h2 k (List.mem_cons_of_mem a hk)),
      lookup?_delParam_of_ne _ _ _ (h1 a (List.mem_cons_self a tl)),
      lookup?_setParam_of_ne _ _ _ _ (h2 a (List.mem_cons_self a tl))]

theorem replaceFirstSpan_eq_or_len (pre post repl : List Char) (l : List Char) :
    replaceFirstSpan pre post repl l = l ∨
    repl.length ≤ (replaceFirstSpan pre post repl l).length := by
  induction l with
  | nil => exact Or.inl rfl
  | cons c cs ih =>
    unfold replaceFirstSpan
    cases hm : matchSpan pre post (c :: cs) with
    | some rest => exact Or.inr (by simp)
    | none =>
      rcases ih with he | hl
      · exact Or.inl (by rw [he])
      · exact Or.inr (by simpa using Nat.le_succ_of_le hl)

theorem didMutationChangeParams_self (ps : ParamMap) :
    didMutationChangeParams ps ps = false := by
  simp [didMutationChangeParams]


/-- Whether a mutation's precondition parameter is present: the guard each
mutation's `apply` in `strategies.ts` tests before doing anything (its
early `return params` branch), keyed by mutation name. -/
def mutationPrecondition (name : String) (ps : ParamMap) : Bool :=
  match name with
  | "remove-action" => (keysOf ps).contains "Action"
  | "remove-version" => (keysOf ps).contains "Version"
  | "endpoint-to-arn" => jsTruthy (lookup? ps "Endpoint")
  | "remove-message" | "empty-message" => (lookup? ps "Message").isSome
  | "remove-batch-message" | "empty-batch-message" =>
      ((keysOf ps).find? batchMsgPat).isSome
  | "remove-batch-id" | "empty-batch-id" => ((keysOf ps).find? batchIdPat).isSome
  | "invalid-action-name" =>
      ((keysOf ps).find? (startsWithStr "ActionName.member.")).isSome
  | "remove-action-name" =>
      !((keysOf ps).filter (startsWithStr "ActionName.member.")).isEmpty
  | "invalid-label" | "empty-label" | "remove-label" | "special-char-label"
  | "long-label" => (lookup? ps "Label").isSome
  | "invalid-attribute-name" | "remove-attribute-name" =>
      (lookup? ps "AttributeName").isSome
  | "empty-tag-key" | "nonexistent-tag" | "long-tag-key" =>
      ((keysOf ps).find? tagKeyPat).isSome
  | "remove-tag-key" => !((keysOf ps).filter tagKeyPat).isEmpty
  | "remove-tags" => !((keysOf ps).filter (startsWithStr "Tags.member.")).isEmpty
  | "zero-index-tag" => !((keysOf ps).filter tagDotPat).isEmpty
  | "remove-tag-value" => !((keysOf ps).filter tagValuePat).isEmpty
  | "long-tag-value" => ((keysOf ps).find? tagValuePat).isSome
  | "remove-tag-keys" =>
      !((keysOf ps).filter (startsWithStr "TagKeys.member.")).isEmpty
  | "empty-tag-keys" | "nonexistent-tag-key" | "long-tag-keys" =>
      ((keysOf ps).find? (startsWithStr "TagKeys.member.")).isSome
  | "zero-index-tag-key" => !((keysOf ps).filter tagKeysNumPat).isEmpty
  | "invalid-protocol" | "remove-protocol" => (lookup? ps "Protocol").isSome
  | "invalid-json-policy" | "empty-json-policy" | "invalid-policy-structure"
  | "remove-data-protection-policy" => (lookup? ps "DataProtectionPolicy").isSome
  | "long-attribute-value" => (lookup? ps "AttributeValue").isSome
  | "invalid-signature-version" =>
      lookup? ps "AttributeName" == some "SignatureVersion"
  | "long-endpoint" => (lookup? ps "Endpoint").isSome
  | "long-subject" => lookup? ps "Action" == some "Publish"
  | _ => false

theorem isSome_false {A : Type} {o : Option A} (h : o.isSome = false) : o = none := by
  cases o <;> simp_all

/-- Each mutation whose precondition fails returns its input unchanged. -/
theorem precondition_false_identity :
    ∀ m ∈ defaultMutations ++ parameterMutations, ∀ (ps : ParamMap) (arn : String),
      mutationPrecondition m.name ps = false → m.apply ps arn = ps := by
  intro m hm ps arn hpre
  simp only [defaultMutations, parameterMutations, List.mem_append, List.mem_cons,
    List.not_mem_nil, or_false] at hm
  rcases hm with (rfl | rfl) | (rfl | rfl | rfl | rfl | rfl | rfl | rfl | rfl | rfl | rfl | rfl | rfl | rfl | rfl | rfl | rfl | rfl | rfl | rfl | rfl | rfl | rfl | rfl | rfl | rfl | rfl | rfl | rfl | rfl | rfl | rfl | rfl | rfl | rfl | rfl | rfl | rfl | rfl | rfl)
  · exact delParam_of_not_contains ps "Action" hpre
  · exact delParam_of_not_contains ps "Version" hpre
  · have h0 : lookup? ps "Message" = none := isSome_false hpre
    simp [removeMessage, h0]
  · have h0 : lookup? ps "Message" = none := isSome_false hpre
    simp [emptyMessage, h0]
  · have h0 : (keysOf ps).find? batchMsgPat = none := isSome_false hpre
    simp [removeBatchMessage, h0]
  · have h0 : (keysOf ps).find? batchMsgPat = none := isSome_false hpre
    simp [emptyBatchMessage, h0]
  · have h0 : (keysOf ps).find? batchIdPat = none := isSome_false hpre
    simp [removeBatchId, h0]
  · have h0 : (keysOf ps).find? batchIdPat = none := isSome_false hpre
    simp [emptyBatchId, h0]
  · simp [endpointToArn, show jsTruthy (lookup? ps "Endpoint") = false from hpre]
  · have h0 : lookup? ps "Endpoint" = none := isSome_false hpre
    simp [longEndpoint, h0]
  · have h0 : lookup? ps "Protocol" = none := isSome_false hpre
    simp [invalidProtocol, h0]
  · have h0 : lookup? ps "Protocol" = none := isSome_false hpre
    simp [removeProtocol, h0]
  · have h0 : (keysOf ps).find? (startsWithStr "ActionName.member.") = none := isSome_false hpre
    simp [invalidActionName, h0]
  · have h0p : (!((keysOf ps).filter (startsWithStr "ActionName.member.")).isEmpty) = false := hpre
    have h0 : ((keysOf ps).filter (startsWithStr "ActionName.member.")).isEmpty = true := by simpa using h0p
    simp only [removeActionName]
    split
    · rfl
    · simp_all
  · have h0 : lookup? ps "Label" = none := isSome_false hpre
    simp [invalidLabel, h0]
  · have h0 : lookup? ps "Label" = none := isSome_false hpre
    simp [emptyLabel, h0]
  · have h0 : lookup? ps "Label" = none := isSome_false hpre
    simp [removeLabel, h0]
  · have h0 : lookup? ps "Label" = none := isSome_false hpre
    simp [specialCharLabel, h0]
  · have h0 : lookup? ps "Label" = none := isSome_false hpre
    simp [longLabel, h0]
  · have h0 : lookup? ps "AttributeName" = none := isSome_false hpre
    simp [invalidAttributeName, h0]
  · have h0 : lookup? ps "AttributeName" = none := isSome_false hpre
    simp [removeAttributeName, h0]
  · have h0 : lookup? ps "AttributeValue" = none := isSome_false hpre
    simp [longAttributeValue, h0]
  · have h0p : (lookup? ps "AttributeName" == some "SignatureVersion") = false := hpre
    have h0 : ¬(lookup? ps "AttributeName" = some "SignatureVersion") := by
      simpa using h0p
    simp [invalidSignatureVersion, h0]
  · have h0 : (keysOf ps).find? tagKeyPat = none := isSome_false hpre
    simp [nonExistentTag, h0]
  · have h0p : (!((keysOf ps).filter (startsWithStr "Tags.member.")).isEmpty) = false := hpre
    have h0 : ((keysOf ps).filter (startsWithStr "Tags.member.")).isEmpty = true := by simpa using h0p
    simp only [removeTags]
    split
    · rfl
    · simp_all
  · have h0 : (keysOf ps).find? tagKeyPat = none := isSome_false hpre
    simp [emptyTagKey, h0]
  · have h0 : (keysOf ps).find? tagKeyPat = none := isSome_false hpre
    simp [longTagKey, h0]
  · have h0p : (!((keysOf ps).filter tagDotPat).isEmpty) = false := hpre
    have h0 : ((keysOf ps).filter tagDotPat).isEmpty = true := by simpa using h0p
    simp only [zeroIndexTag]
    split
    · rfl
    · simp_all
  · have h0p : (!((keysOf ps).filter tagKeyPat).isEmpty) = false := hpre
    have h0 : ((keysOf ps).filter tagKeyPat).isEmpty = true := by simpa using h0p
    simp only [removeTagKey]
    split
    · rfl
    · simp_all
  · have h0p : (!((keysOf ps).filter tagValuePat).isEmpty) = false := hpre
    have h0 : ((keysOf ps).filter tagValuePat).isEmpty = true := by simpa using h0p
    simp only [removeTagValue]
    split
    · rfl
    · simp_all
  · have h0 : (keysOf ps).find? tagValuePat = none := isSome_false hpre
    simp [longTagValue, h0]
  · have h0 : (keysOf ps).find? (startsWithStr "TagKeys.member.") = none := isSome_false hpre
    simp [nonExistentTagKey, h0]
  · have h0p : (!((keysOf ps).filter (startsWithStr "TagKeys.member.")).isEmpty) = false := hpre
    have h0 : ((keysOf ps).filter (startsWithStr "TagKeys.member.")).isEmpty = true := by simpa using h0p
    simp only [removeTagKeys]
    split
    · rfl
    · simp_all
  · have h0 : (keysOf ps).find? (startsWithStr "TagKeys.member.") = none := isSome_false hpre
    simp [emptyTagKeys, h0]
  · have h0 : (keysOf ps).find? (startsWithStr "TagKeys.member.") = none := isSome_false hpre
    simp [longTagKeys, h0]
  · have h0p : (!((keysOf ps).filter tagKeysNumPat).isEmpty) = false := hpre
    have h0 : ((keysOf ps).filter tagKeysNumPat).isEmpty = true := by simpa using h0p
    simp only [zeroIndexTagKey]
    split
    · rfl
    · simp_all
  · have h0p : (lookup? ps "Action" == some "Publish") = false := hpre
    have h0 : ¬(lookup? ps "Action" = some "Publish") := by simpa using h0p
    simp [longSubject, h0]
  · have h0 : lookup? ps "DataProtectionPolicy" = none := isSome_false hpre
    simp [invalidJsonPolicy, h0]
  · have h0 : lookup? ps "DataProtectionPolicy" = none := isSome_false hpre
    simp [emptyJsonPolicy, h0]
  · have h0 : lookup? ps "DataProtectionPolicy" = none := isSome_false hpre
    simp [invalidPolicyStructure, h0]
  · have h0 : lookup? ps "DataProtectionPolicy" = none := isSome_false hpre
    simp [removeDataProtectionPolicy, h0]


/-! ## ARN parsing (`src/utils/arn.ts`) -/

/-- `arn.split(':')` on explicit characters. -/
def splitCh (sep : Char) : List Char → List (List Char)
  | [] => [[]]
  | c :: cs =>
    if c = sep then [] :: splitCh sep cs
    else
      match splitCh sep cs with
      | [] => [[c]]
      | r :: rs => (c :: r) :: rs

/-- `ParsedArn` from `src/utils/arn.ts`. -/
structure ParsedArn where
  partition : String
  service : String
  region : String
  accountId : String
  resource : String
  deriving Repr, DecidableEq

/-- `parseArn` from `src/utils/arn.ts`; a thrown `ArnParseError` is
`Except.error` with the message. -/
def parseArn (arn : String) : Except String ParsedArn :=
  if arn = "" then .error "ARN cannot be empty"
  else
    match splitCh ':' arn.data with
    | pfx :: partition :: service :: region :: accountId :: r1 :: rs =>
      if String.mk pfx ≠ "arn" then
        .error "Invalid ARN: must start with arn:"
      else if partition.isEmpty then
        .error "Invalid ARN: partition cannot be empty"
      else if service.isEmpty then
        .error "Invalid ARN: service cannot be empty"
      else
        .ok ⟨String.mk partition, String.mk service, String.mk region,
          String.mk accountId, String.intercalate ":" ((r1 :: rs).map String.mk)⟩
    | _ => .error "Invalid ARN format: expected at least 6 colon-separated parts"

/-- `generateNonexistentTopicArn` from `src/mutations/runner.ts`.  The
`crypto.randomUUID()` call is IO randomness, so the generated identifier
is passed in as `uuid`. -/
def generateNonexistentTopicArn (allowedTopicArn uuid : String) :
    Except String String :=
  match parseArn allowedTopicArn with
  | .error e => .error e
  | .ok parsed =>
      .ok ("arn:" ++ parsed.partition ++ ":sns:" ++ parsed.region ++ ":" ++
        parsed.accountId ++ ":nonexistent-" ++ uuid)

/-! ## Action catalog (`src/actions/*`) -/

/-- Modelled from the spec: `SNS_API_VERSION` lives in
`src/utils/constants.ts`, which is not among the provided sources; the
spec only requires every builder to include the operation name, the API
version and the resource parameter, and no claim depends on the value. -/
def SNS_API_VERSION : String := "2010-03-31"

/-- The account id parseArn extracts for `AddPermission.buildParams`.  In
the source `parseArn` throws on an invalid ARN, which aborts the run
before any probing; the total default `""` is never observed on a run
that reaches the prober. -/
def accountIdOf (arn : String) : String :=
  match parseArn arn with
  | .ok p => p.accountId
  | .error _ => ""

/-- An entry of the action catalog: `ActionDefinition` plus the
(possibly overridden) `buildParams` builder. -/
structure ActionDef where
  name : String
  category : String
  safe : Bool
  parameterName : String
  buildParams : String → ParamMap

/-- The base-class `Action.buildParams`. -/
def baseBuildParams (name parameterName topicArn : String) : ParamMap :=
  [("Action", name), (parameterName, topicArn), ("Version", SNS_API_VERSION)]

def GetTopicAttributes : ActionDef :=
  { name := "GetTopicAttributes", category := "read", safe := true,
    parameterName := "TopicArn",
    buildParams := baseBuildParams "GetTopicAttributes" "TopicArn" }

def GetDataProtectionPolicy : ActionDef :=
  { name := "GetDataProtectionPolicy", category := "read", safe := true,
    parameterName := "ResourceArn",
    buildParams := baseBuildParams "GetDataProtectionPolicy" "ResourceArn" }

def ListSubscriptionsByTopic : ActionDef :=
  { name := "ListSubscriptionsByTopic", category := "read", safe := true,
    parameterName := "TopicArn",
    buildParams := baseBuildParams "ListSubscriptionsByTopic" "TopicArn" }

def ListTagsForResource : ActionDef :=
  { name := "ListTagsForResource", category := "read", safe := true,
    parameterName := "ResourceArn",
    buildParams := baseBuildParams "ListTagsForResource" "ResourceArn" }

def Publish : ActionDef :=
  { name := "Publish", category := "write", safe := true,
    parameterName := "TopicArn",
    buildParams := fun topicArn =>
      [("Action", "Publish"), ("TopicArn", topicArn),
       ("Message", "sns-buster test message"), ("Version", SNS_API_VERSION)] }

def PublishBatch : ActionDef :=
  { name := "PublishBatch", category := "write", safe := true,
    parameterName := "TopicArn",
    buildParams := fun topicArn =>
      [("Action", "PublishBatch"), ("TopicArn", topicArn),
       ("PublishBatchRequestEntries.member.1.Id", "msg1"),
       ("PublishBatchRequestEntries.member.1.Message", "sns-buster batch test message"),
       ("Version", SNS_API_VERSION)] }

def Subscribe : ActionDef :=
  { name := "Subscribe", category := "write", safe := true,
    parameterName := "TopicArn",
    buildParams := fun topicArn =>
      [("Action", "Subscribe"), ("TopicArn", topicArn), ("Protocol", "https"),
       ("Endpoint", "https://example.com/sns-buster-test"),
       ("Version", SNS_API_VERSION)] }

def TagResource : ActionDef :=
  { name := "TagResource", category := "write", safe := true,
    parameterName := "ResourceArn",
    buildParams := fun topicArn =>
      [("Action", "TagResource"), ("ResourceArn", topicArn),
       ("Tags.member.1.Key", "sns-buster-test"), ("Tags.member.1.Value", "true"),
       ("Version", SNS_API_VERSION)] }

def UntagResource : ActionDef :=
  { name := "UntagResource", category := "write", safe := true,
    parameterName := "ResourceArn",
    buildParams := fun topicArn =>
      [("Action", "UntagResource"), ("ResourceArn", topicArn),
       ("TagKeys.member.1", "sns-buster-test"), ("Version", SNS_API_VERSION)] }

def AddPermission : ActionDef :=
  { name := "AddPermission", category := "write", safe := true,
    parameterName := "TopicArn",
    buildParams := fun topicArn =>
      [("Action", "AddPermission"), ("TopicArn", topicArn),
       ("Label", "sns-buster-test-noop"),
       ("AWSAccountId.member.1", accountIdOf topicArn),
       ("ActionName.member.1", "GetTopicAttributes"),
       ("Version", SNS_API_VERSION)] }

def RemovePermission : ActionDef :=
  { name := "RemovePermission", category := "write", safe := false,
    parameterName := "TopicArn",
    buildParams := fun topicArn =>
      [("Action", "RemovePermission"), ("TopicArn", topicArn),
       ("Label", "sns-buster-test-noop"), ("Version", SNS_API_VERSION)] }

def SetTopicAttributes : ActionDef :=
  { name := "SetTopicAttributes", category := "write", safe := false,
    parameterName := "TopicArn",
    buildParams := fun topicArn =>
      [("Action", "SetTopicAttributes"), ("TopicArn", topicArn),
       ("AttributeName", "SignatureVersion"), ("AttributeValue", "1"),
       ("Version", SNS_API_VERSION)] }

def PutDataProtectionPolicy : ActionDef :=
  { name := "PutDataProtectionPolicy", category := "write", safe := false,
    parameterName := "ResourceArn",
    buildParams := fun topicArn =>
      [("Action", "PutDataProtectionPolicy"), ("ResourceArn", topicArn),
       ("DataProtectionPolicy",
        "\x7b\"Name\":\"sns-buster-test-policy\",\"Description\":\"Test policy from sns-buster\",\"Version\":\"2021-06-01\",\"Statement\":[\x7b\"Sid\":\"sns-buster-audit\",\"DataDirection\":\"Inbound\",\"Principal\":[\"*\"],\"DataIdentifier\":[\"arn:aws:dataprotection::aws:data-identifier/CreditCardNumber\"],\"Operation\":\x7b\"Audit\":\x7b\"SampleRate\":\"99\",\"FindingsDestination\":\x7b\x7d\x7d\x7d\x7d]\x7d"),
       ("Version", SNS_API_VERSION)] }

def DeleteTopic : ActionDef :=
  { name := "DeleteTopic", category := "write", safe := false,
    parameterName := "TopicArn",
    buildParams := baseBuildParams "DeleteTopic" "TopicArn" }

/-- `ALL_ACTIONS` from `src/actions/index.ts`, in source order: read
actions, safe write actions, `AddPermission` with `RemovePermission`
immediately after it ("to clean up … only runs in --all mode"), unsafe
write actions, and the destructive `DeleteTopic` always last. -/
def ALL_ACTIONS : List ActionDef :=
  [GetTopicAttributes, GetDataProtectionPolicy, ListSubscriptionsByTopic,
   ListTagsForResource,
   Publish, PublishBatch, Subscribe, TagResource, UntagResource,
   AddPermission, RemovePermission,
   SetTopicAttributes, PutDataProtectionPolicy,
   DeleteTopic]

/-- The run mode selected on the CLI. -/
inductive RunMode
  | read
  | safe
  | all
  deriving Repr, DecidableEq

def getReadActions : List ActionDef :=
  ALL_ACTIONS.filter (fun action => action.category == "read")

def getSafeActions : List ActionDef :=
  ALL_ACTIONS.filter (fun action => action.safe)

def getAllActions : List ActionDef := ALL_ACTIONS

/-- `getActionsByMode` from `src/actions/index.ts`. -/
def getActionsByMode : RunMode → List ActionDef
  | .read => getReadActions
  | .safe => getSafeActions
  | .all => getAllActions

/-- In a scheduled action list, every occurrence of the state-granting
`AddPermission` is immediately followed by its revocation
`RemovePermission`. -/
def grantRevokeAdjacent : List ActionDef → Bool
  | [] => true
  | [a] => !(a.name == "AddPermission")
  | a :: b :: rest =>
      (!(a.name == "AddPermission") || (b.name == "RemovePermission")) &&
      grantRevokeAdjacent (b :: rest)


theorem c9_counterexample : grantRevokeAdjacent (getActionsByMode RunMode.safe) = false := by
  decide

theorem c9_amended :
    grantRevokeAdjacent (getActionsByMode RunMode.read) = true ∧
    grantRevokeAdjacent (getActionsByMode RunMode.all) = true ∧
    ((getActionsByMode RunMode.safe).map ActionDef.name).getLast? = some "AddPermission" ∧
    ((getActionsByMode RunMode.safe).map ActionDef.name).contains "RemovePermission" = false := by
  refine ⟨by decide, by decide, by decide, by decide⟩


/-! ## The differential prober (`testActionMutations`, `src/mutations/runner.ts`)

Async/await over the signed transport is embedded as the `Except` monad: a
rejected or timed-out `fetch` is `Except.error` with the rejection message,
and — exactly as in the source, which has no `try`/`catch` on this path —
an error on any `await` propagates outward.  The per-request
`writeMutationsHttpLog` side effect is embedded as an explicit trace of
sent requests (files already written persist when a later await rejects,
so the trace is returned even on error). -/

/-- `MutationTestResult` from `compare.ts` (the `reason` field is always
set by the prober). -/
structure MutationTestResult where
  mutationName : String
  mutationDescription : String
  allowed : TopicResult
  denied : TopicResult
  nonexistent : TopicResult
  useful : Bool
  reason : String
  deriving Repr, DecidableEq

/-- The baseline outcomes of `ActionMutationResult`. -/
structure BaselineResults where
  allowed : TopicResult
  denied : TopicResult
  nonexistent : TopicResult
  deriving Repr, DecidableEq

/-- `ActionMutationResult` from `compare.ts`. -/
structure ActionMutationResult where
  action : String
  baseline : BaselineResults
  mutations : List MutationTestResult
  usefulMutations : List MutationTestResult
  deriving Repr, DecidableEq

/-- The per-target context of one run (`MutationTestContext`): regions and
credentials are folded into the opaque signed-transport oracle. -/
structure TripleCtx where
  allowedTopicArn : String
  deniedTopicArn : String
  nonexistentTopicArn : String
  allowedEndpoint : String
  deniedEndpoint : String
  nonexistentEndpoint : String
  deriving Repr, DecidableEq

/-- One signed request issued by the prober, as recorded by
`writeMutationsHttpLog(outputPath, label, leg, …)`. -/
structure SentReq where
  label : String
  leg : String
  params : ParamMap
  deriving Repr, DecidableEq

/-- The transport oracle: `sendSignedRequest` (build + sign + send +
`buildTopicResult`).  `Except.error` is a rejected promise. -/
abbrev SendFn := String → ParamMap → Except String TopicResult

/-- The `for (const mutation of mutations)` loop of `testActionMutations`:
apply the mutation to the three baselines, skip when the change detector
reports no change, otherwise send the three mutated requests (allowed,
denied, nonexistent, in order), classify, and accumulate. -/
def runMutationLoop (send : SendFn) (ctx : TripleCtx) (actionName : String)
    (baseA baseD baseN : ParamMap) :
    List Mutation → List MutationTestResult → List MutationTestResult →
      List SentReq →
    List SentReq × Except String (List MutationTestResult × List MutationTestResult)
  | [], results, usefuls, log => (log, .ok (results, usefuls))
  | m :: rest, results, usefuls, log =>
    let mutA := m.apply baseA ctx.allowedTopicArn
    let mutD := m.apply baseD ctx.deniedTopicArn
    let mutN := m.apply baseN ctx.nonexistentTopicArn
    if didMutationChangeParams baseA mutA then
      let logA := log ++ [⟨actionName ++ "-" ++ m.name, "allowed", mutA⟩]
      match send ctx.allowedEndpoint mutA with
      | .error e => (logA, .error e)
      | .ok ra =>
        let logD := logA ++ [⟨actionName ++ "-" ++ m.name, "denied", mutD⟩]
        match send ctx.deniedEndpoint mutD with
        | .error e => (logD, .error e)
        | .ok rd =>
          let logN := logD ++ [⟨actionName ++ "-" ++ m.name, "nonexistent", mutN⟩]
          match send ctx.nonexistentEndpoint mutN with
          | .error e => (logN, .error e)
          | .ok rn =>
            let verdict := isUsefulMutation ⟨ra, rd, rn⟩ (some m.name) (some actionName)
            let mr : MutationTestResult :=
              ⟨m.name, m.description, ra, rd, rn, verdict.useful, verdict.reason⟩
            runMutationLoop send ctx actionName baseA baseD baseN rest
              (results ++ [mr])
              (if verdict.useful then usefuls ++ [mr] else usefuls)
              logN
    else
      runMutationLoop send ctx actionName baseA baseD baseN rest results usefuls log

/-- `testActionMutations` from `src/mutations/runner.ts`: the three
baseline requests, then the mutation loop. -/
def testActionMutations (send : SendFn) (action : ActionDef) (ctx : TripleCtx) :
    List SentReq × Except String ActionMutationResult :=
  let baseA := action.buildParams ctx.allowedTopicArn
  let baseD := action.buildParams ctx.deniedTopicArn
  let baseN := action.buildParams ctx.nonexistentTopicArn
  let log0 := [(⟨action.name ++ "-baseline", "allowed", baseA⟩ : SentReq)]
  match send ctx.allowedEndpoint baseA with
  | .error e => (log0, .error e)
  | .ok bA =>
    let log1 := log0 ++ [⟨action.name ++ "-baseline", "denied", baseD⟩]
    match send ctx.deniedEndpoint baseD with
    | .error e => (log1, .error e)
    | .ok bD =>
      let log2 := log1 ++ [⟨action.name ++ "-baseline", "nonexistent", baseN⟩]
      match send ctx.nonexistentEndpoint baseN with
      | .error e => (log2, .error e)
      | .ok bN =>
        match runMutationLoop send ctx action.name baseA baseD baseN
            (getMutationsForAction action.name) [] [] log2 with
        | (log3, .error e) => (log3, .error e)
        | (log3, .ok (results, usefuls)) =>
            (log3, .ok ⟨action.name, ⟨bA, bD, bN⟩, results, usefuls⟩)


/-- A transport failure on a probe leg does not produce an "inconclusive"
verdict: it terminates the whole mutation loop with the error, recording
nothing for that mutation and never reaching the remaining mutations. -/
theorem runMutationLoop_head_fail (send : SendFn) (ctx : TripleCtx)
    (actionName : String) (baseA baseD baseN : ParamMap) (m : Mutation)
    (rest : List Mutation) (results usefuls : List MutationTestResult)
    (log : List SentReq) (e : String)
    (hg : didMutationChangeParams baseA (m.apply baseA ctx.allowedTopicArn) = true)
    (hf : send ctx.allowedEndpoint (m.apply baseA ctx.allowedTopicArn) = .error e) :
    runMutationLoop send ctx actionName baseA baseD baseN (m :: rest) results usefuls log =
      (log ++ [⟨actionName ++ "-" ++ m.name, "allowed", m.apply baseA ctx.allowedTopicArn⟩],
       .error e) := by
  simp only [runMutationLoop, hg, if_true, hf]

theorem c5_transport_abort (send : SendFn) (action : ActionDef) (ctx : TripleCtx)
    (rA rD rN : TopicResult) (e : String)
    (hA : send ctx.allowedEndpoint (action.buildParams ctx.allowedTopicArn) = .ok rA)
    (hD : send ctx.deniedEndpoint (action.buildParams ctx.deniedTopicArn) = .ok rD)
    (hN : send ctx.nonexistentEndpoint (action.buildParams ctx.nonexistentTopicArn) = .ok rN)
    (hguard : didMutationChangeParams (action.buildParams ctx.allowedTopicArn)
      (removeAction.apply (action.buildParams ctx.allowedTopicArn) ctx.allowedTopicArn) = true)
    (hfail : send ctx.allowedEndpoint
      (removeAction.apply (action.buildParams ctx.allowedTopicArn) ctx.allowedTopicArn) =
      .error e) :
    (testActionMutations send action ctx).2 = .error e := by
  have hcat : getMutationsForAction action.name =
      removeAction :: ([removeVersion] ++ parameterMutations) := rfl
  simp only [testActionMutations, hA, hD, hN, hcat]
  rw [runMutationLoop_head_fail send ctx action.name _ _ _ removeAction _ _ _ _ e hguard hfail]

def c5Ctx : TripleCtx :=
  { allowedTopicArn := "arn:aws:sns:us-east-1:111122223333:allowed-topic"
    deniedTopicArn := "arn:aws:sns:us-east-1:444455556666:denied-topic"
    nonexistentTopicArn := "arn:aws:sns:us-east-1:111122223333:nonexistent-topic"
    allowedEndpoint := "ep-allowed"
    deniedEndpoint := "ep-denied"
    nonexistentEndpoint := "ep-nonexistent" }

/-- A transport that answers normally while the request still has its
`Action` parameter and times out otherwise, so the `remove-action` probe's
allowed leg is the failing request. -/
def c5Send : SendFn := fun _ ps =>
  if (keysOf ps).contains "Action" then .ok ⟨403, some "AuthorizationError", none⟩
  else .error "network timeout"

theorem c5_transport_abort_witness :
    (testActionMutations c5Send Publish c5Ctx).2 = .error "network timeout" :=
  c5_transport_abort c5Send Publish c5Ctx
    ⟨403, some "AuthorizationError", none⟩ ⟨403, some "AuthorizationError", none⟩
    ⟨403, some "AuthorizationError", none⟩ "network timeout"
    rfl rfl rfl (by decide) rfl


theorem string_append_left_cancel {a b c : String} (h : a ++ b = a ++ c) : b = c := by
  have hd := congrArg String.data h
  simp only [String.data_append] at hd
  have hbc := List.append_cancel_left hd
  exact congrArg String.mk hbc

theorem catalogNames_nodup :
    ((defaultMutations ++ parameterMutations).map Mutation.name).Nodup := by
  decide

theorem baseline_not_catalogName :
    "baseline" ∉ (defaultMutations ++ parameterMutations).map Mutation.name := by
  decide

/-- Every request the mutation loop appends to the trace either was in the
incoming log or is tagged with the label of a catalog mutation whose
change-detector guard fired. -/
theorem runMutationLoop_trace (send : SendFn) (ctx : TripleCtx) (actionName : String)
    (baseA baseD baseN : ParamMap) :
    ∀ (muts : List Mutation) (results usefuls : List MutationTestResult)
      (log : List SentReq) (req : SentReq),
      req ∈ (runMutationLoop send ctx actionName baseA baseD baseN
        muts results usefuls log).1 →
      req ∈ log ∨ ∃ m' ∈ muts,
        didMutationChangeParams baseA (m'.apply baseA ctx.allowedTopicArn) = true ∧
        req.label = actionName ++ "-" ++ m'.name := by
  intro muts
  induction muts with
  | nil =>
    intro results usefuls log req h
    simp only [runMutationLoop] at h
    exact Or.inl h
  | cons m rest ih =>
    intro results usefuls log req h
    simp only [runMutationLoop] at h
    by_cases hg : didMutationChangeParams baseA (m.apply baseA ctx.allowedTopicArn) = true
    · rw [if_pos hg] at h
      have mkpair : ∀ hq : req.label = actionName ++ "-" ++ m.name,
          req ∈ log ∨ ∃ m' ∈ m :: rest,
            didMutationChangeParams baseA (m'.apply baseA ctx.allowedTopicArn) = true ∧
            req.label = actionName ++ "-" ++ m'.name :=
        fun hq => Or.inr ⟨m, List.mem_cons_self m rest, hg, hq⟩
      cases hA : send ctx.allowedEndpoint (m.apply baseA ctx.allowedTopicArn) with
      | error e =>
        rw [hA] at h
        simp only [List.mem_append, List.mem_singleton] at h
        rcases h with h | rfl
        · exact Or.inl h
        · exact mkpair rfl
      | ok ra =>
        rw [hA] at h
        cases hD : send ctx.deniedEndpoint (m.apply baseD ctx.deniedTopicArn) with
        | error e =>
          rw [hD] at h
          simp only [List.append_assoc, List.mem_append, List.mem_singleton] at h
          rcases h with h | h
          · exact Or.inl h
          · rcases h with rfl | rfl <;> exact mkpair rfl
        | ok rd =>
          rw [hD] at h
          cases hN : send ctx.nonexistentEndpoint (m.apply baseN ctx.nonexistentTopicArn) with
          | error e =>
            rw [hN] at h
            simp only [List.append_assoc, List.mem_append, List.mem_singleton] at h
            rcases h with h | h
            · exact Or.inl h
            · rcases h with rfl | rfl | rfl <;> exact mkpair rfl
          | ok rn =>
            rw [hN] at h
            rcases ih _ _ _ _ h with hlog | ⟨m', hm', hg', hl'⟩
            · simp only [List.append_assoc, List.mem_append, List.mem_singleton] at hlog
              rcases hlog with h | h
              · exact Or.inl h
              · rcases h with rfl | rfl | rfl <;> exact mkpair rfl
            · exact Or.inr ⟨m', List.mem_cons_of_mem m hm', hg', hl'⟩
    · rw [if_neg hg] at h
      rcases ih _ _ _ _ h with hlog | ⟨m', hm', hg', hl'⟩
      · exact Or.inl hlog
      · exact Or.inr ⟨m', List.mem_cons_of_mem m hm', hg', hl'⟩


theorem c6_precondition_absent_skips :
    ∀ m ∈ defaultMutations ++ parameterMutations, ∀ a ∈ ALL_ACTIONS,
      ∀ (send : SendFn) (ctx : TripleCtx),
      mutationPrecondition m.name (a.buildParams ctx.allowedTopicArn) = false →
      m.apply (a.buildParams ctx.allowedTopicArn) ctx.allowedTopicArn =
        a.buildParams ctx.allowedTopicArn ∧
      ∀ req ∈ (testActionMutations send a ctx).1,
        req.label ≠ a.name ++ "-" ++ m.name := by
  intro m hm a _ send ctx hpre
  have hid := precondition_false_identity m hm
    (a.buildParams ctx.allowedTopicArn) ctx.allowedTopicArn hpre
  refine ⟨hid, ?_⟩
  have hguard : didMutationChangeParams (a.buildParams ctx.allowedTopicArn)
      (m.apply (a.buildParams ctx.allowedTopicArn) ctx.allowedTopicArn) = false := by
    rw [hid]; exact didMutationChangeParams_self _
  have hbl : ∀ r : SentReq, r.label = a.name ++ "-baseline" →
      r.label ≠ a.name ++ "-" ++ m.name := by
    intro r hr hEq
    rw [hr] at hEq
    have h1 : (a.name ++ "-") ++ "baseline" = (a.name ++ "-") ++ m.name := by
      rw [String.append_assoc]
      exact hEq
    have hbm : ("baseline" : String) = m.name := string_append_left_cancel h1
    exact baseline_not_catalogName (hbm ▸ List.mem_map_of_mem Mutation.name hm)
  intro req hreq hlabel
  simp only [testActionMutations] at hreq
  split at hreq
  · simp only [List.mem_singleton] at hreq
    exact hbl req (by rw [hreq]) hlabel
  · split at hreq
    · simp only [List.singleton_append, List.nil_append, List.mem_cons,
        List.mem_singleton, List.not_mem_nil, or_false] at hreq
      rcases hreq with rfl | rfl <;> exact hbl _ rfl hlabel
    · split at hreq
      · simp only [List.singleton_append, List.cons_append, List.nil_append,
          List.mem_cons, List.mem_singleton, List.not_mem_nil, or_false] at hreq
        rcases hreq with rfl | rfl | rfl <;> exact hbl _ rfl hlabel
      · split at hreq
        case _ log3 e heq =>
          simp only [] at hreq
          have htr := runMutationLoop_trace send ctx a.name
            (a.buildParams ctx.allowedTopicArn) (a.buildParams ctx.deniedTopicArn)
            (a.buildParams ctx.nonexistentTopicArn) (getMutationsForAction a.name)
            [] [] _ req (by rw [heq]; exact hreq)
          rcases htr with hlog | ⟨m', hm', hg', hl'⟩
          · simp only [List.singleton_append, List.cons_append, List.nil_append,
              List.mem_cons, List.mem_singleton, List.not_mem_nil, or_false] at hlog
            rcases hlog with rfl | rfl | rfl <;> exact hbl _ rfl hlabel
          · rw [hlabel] at hl'
            have hnm : m.name = m'.name := string_append_left_cancel hl'
            have hmm : m = m' :=
              List.inj_on_of_nodup_map catalogNames_nodup hm hm' hnm
            rw [← hmm, hguard] at hg'
            exact Bool.false_ne_true hg'
        case _ log3 pr heq =>
          simp only [] at hreq
          have htr := runMutationLoop_trace send ctx a.name
            (a.buildParams ctx.allowedTopicArn) (a.buildParams ctx.deniedTopicArn)
            (a.buildParams ctx.nonexistentTopicArn) (getMutationsForAction a.name)
            [] [] _ req (by rw [heq]; exact hreq)
          rcases htr with hlog | ⟨m', hm', hg', hl'⟩
          · simp only [List.singleton_append, List.cons_append, List.nil_append,
              List.mem_cons, List.mem_singleton, List.not_mem_nil, or_false] at hlog
            rcases hlog with rfl | rfl | rfl <;> exact hbl _ rfl hlabel
          · rw [hlabel] at hl'
            have hnm : m.name = m'.name := string_append_left_cancel hl'
            have hmm : m = m' :=
              List.inj_on_of_nodup_map catalogNames_nodup hm hm' hnm
            rw [← hmm, hguard] at hg'
            exact Bool.false_ne_true hg'


def c6Ctx : TripleCtx :=
  { allowedTopicArn := "arn:aws:sns:eu-west-1:111122223333:allowed-topic"
    deniedTopicArn := "arn:aws:sns:eu-west-1:444455556666:denied-topic"
    nonexistentTopicArn := "arn:aws:sns:eu-west-1:111122223333:nonexistent-topic"
    allowedEndpoint := "ep-a"
    deniedEndpoint := "ep-d"
    nonexistentEndpoint := "ep-n" }

def c6Send : SendFn := fun _ _ => .ok ⟨403, some "AuthorizationError", none⟩

theorem c6_witness :
    mutationPrecondition "remove-message"
      (GetTopicAttributes.buildParams c6Ctx.allowedTopicArn) = false ∧
    (removeMessage.apply (GetTopicAttributes.buildParams c6Ctx.allowedTopicArn)
        c6Ctx.allowedTopicArn = GetTopicAttributes.buildParams c6Ctx.allowedTopicArn ∧
      ∀ req ∈ (testActionMutations c6Send GetTopicAttributes c6Ctx).1,
        req.label ≠ "GetTopicAttributes" ++ "-" ++ "remove-message") :=
  ⟨by decide,
   c6_precondition_absent_skips removeMessage
     (List.mem_append_right defaultMutations (List.mem_cons_self removeMessage _))
     GetTopicAttributes (List.mem_cons_self GetTopicAttributes _)
     c6Send c6Ctx (by decide)⟩


theorem ne_of_pat {pat : String → Bool} {k0 k' : String}
    (h0 : pat k0 = true) (hp : pat k' = false) : k' ≠ k0 := by
  intro e
  rw [e, h0] at hp
  exact Bool.false_ne_true hp.symm

theorem preserve_optMatch (ps : ParamMap) (K k' : String) (f : ParamMap → ParamMap)
    (hf : lookup? (f ps) k' = lookup? ps k') :
    lookup? (match lookup? ps K with | none => ps | some _ => f ps) k' =
      lookup? ps k' := by
  cases lookup? ps K
  · rfl
  · exact hf

theorem preserve_findMatch (ps : ParamMap) (pat : String → Bool) (k' : String)
    (g : String → ParamMap)
    (hg : ∀ k0, pat k0 = true → lookup? (g k0) k' = lookup? ps k') :
    lookup? (match (keysOf ps).find? pat with | none => ps | some k0 => g k0) k' =
      lookup? ps k' := by
  cases hf : (keysOf ps).find? pat
  · rfl
  · exact hg _ (List.find?_some hf)

theorem preserve_filterIf (ps : ParamMap) (pat : String → Bool) (k' : String)
    (hp : pat k' = false) :
    lookup? (if ((keysOf ps).filter pat).isEmpty then ps
      else ((keysOf ps).filter pat).foldl delParam ps) k' = lookup? ps k' := by
  split
  · rfl
  · exact lookup?_foldl_delParam _ _ _
      (fun k hk => ne_of_pat (List.of_mem_filter hk) hp)

theorem preserve_zeroFoldIf (ps : ParamMap) (pat : String → Bool) (k' : String)
    (f : String → String) (hp : pat k' = false)
    (hf : ∀ k, pat k = true → k' ≠ f k) :
    lookup? (if ((keysOf ps).filter pat).isEmpty then ps
      else ((keysOf ps).filter pat).foldl
        (fun acc k => delParam (setParam acc (f k) ((lookup? acc k).getD "")) k) ps) k' =
      lookup? ps k' := by
  split
  · rfl
  · exact lookup?_zeroFold f _ _ _
      (fun k hk => ne_of_pat (List.of_mem_filter hk) hp)
      (fun k hk => hf k (List.of_mem_filter hk))

theorem preserve_guardIf (b : Bool) (ps q : ParamMap) (k' : String)
    (hq : lookup? q k' = lookup? ps k') :
    lookup? (if b then ps else q) k' = lookup? ps k' := by
  cases b
  · exact hq
  · rfl

theorem replaceTagIdx_ne (k k' : String) (hk : tagDotPat k = true)
    (h1 : tagDotPat k' = false) (h2 : k'.data.length < 14) :
    k' ≠ replaceTagIdx k := by
  intro e
  rcases replaceFirstSpan_eq_or_len "Tags.member.".data ".".data
      "Tags.member.0.".data k.data with he | hl
  · rw [replaceTagIdx, he] at e
    have hkk : k' = k := e
    rw [hkk, hk] at h1
    exact Bool.false_ne_true h1.symm
  · have hlen : 14 ≤ (replaceTagIdx k).data.length := by
      simpa [replaceTagIdx] using hl
    rw [← e] at hlen
    omega

theorem replaceTagKeysIdx_ne (k k' : String) (hk : tagKeysNumPat k = true)
    (h1 : tagKeysNumPat k' = false) (h2 : k'.data.length < 16) :
    k' ≠ replaceTagKeysIdx k := by
  intro e
  rcases replaceFirstSpan_eq_or_len "TagKeys.member.".data []
      "TagKeys.member.0".data k.data with he | hl
  · rw [replaceTagKeysIdx, he] at e
    have hkk : k' = k := e
    rw [hkk, hk] at h1
    exact Bool.false_ne_true h1.symm
  · have hlen : 16 ≤ (replaceTagKeysIdx k).data.length := by
      simpa [replaceTagKeysIdx] using hl
    rw [← e] at hlen
    omega


/-- No mutation in the catalog alters or removes the resource-identifying
parameter: the `TopicArn` and `ResourceArn` bindings survive every
mutation unchanged, for every input parameter map and target ARN. -/
theorem c7_arn_preserved :
    ∀ m ∈ defaultMutations ++ parameterMutations, ∀ (ps : ParamMap) (arn : String),
      lookup? (m.apply ps arn) "TopicArn" = lookup? ps "TopicArn" ∧
      lookup? (m.apply ps arn) "ResourceArn" = lookup? ps "ResourceArn" := by
  intro m hm ps arn
  simp only [defaultMutations, parameterMutations, List.mem_append, List.mem_cons,
    List.not_mem_nil, or_false] at hm
  rcases hm with (rfl | rfl) | (rfl | rfl | rfl | rfl | rfl | rfl | rfl | rfl | rfl | rfl | rfl | rfl | rfl | rfl | rfl | rfl | rfl | rfl | rfl | rfl | rfl | rfl | rfl | rfl | rfl | rfl | rfl | rfl | rfl | rfl | rfl | rfl | rfl | rfl | rfl | rfl | rfl | rfl | rfl)
  · exact ⟨lookup?_delParam_of_ne ps "Action" "TopicArn" (by decide),
      lookup?_delParam_of_ne ps "Action" "ResourceArn" (by decide)⟩
  · exact ⟨lookup?_delParam_of_ne ps "Version" "TopicArn" (by decide),
      lookup?_delParam_of_ne ps "Version" "ResourceArn" (by decide)⟩
  · refine ⟨?_, ?_⟩ <;>
      (simp only [removeMessage]
       cases lookup? ps "Message"
       · rfl
       · exact lookup?_delParam_of_ne ps "Message" _ (by decide))
  · refine ⟨?_, ?_⟩ <;>
      (simp only [emptyMessage]
       cases lookup? ps "Message"
       · rfl
       · exact lookup?_setParam_of_ne ps "Message" _ _ (by decide))
  · refine ⟨?_, ?_⟩ <;>
      (simp only [removeBatchMessage]
       cases hf : (keysOf ps).find? batchMsgPat
       · rfl
       · exact lookup?_delParam_of_ne ps _ _
           (ne_of_pat (List.find?_some hf) (by decide)))
  · refine ⟨?_, ?_⟩ <;>
      (simp only [emptyBatchMessage]
       cases hf : (keysOf ps).find? batchMsgPat
       · rfl
       · exact lookup?_setParam_of_ne ps _ _ _
           (ne_of_pat (List.find?_some hf) (by decide)))
  · refine ⟨?_, ?_⟩ <;>
      (simp only [removeBatchId]
       cases hf : (keysOf ps).find? batchIdPat
       · rfl
       · exact lookup?_delParam_of_ne ps _ _
           (ne_of_pat (List.find?_some hf) (by decide)))
  · refine ⟨?_, ?_⟩ <;>
      (simp only [emptyBatchId]
       cases hf : (keysOf ps).find? batchIdPat
       · rfl
       · exact lookup?_setParam_of_ne ps _ _ _
           (ne_of_pat (List.find?_some hf) (by decide)))
  · exact ⟨preserve_guardIf _ ps _ "TopicArn" (lookup?_setParam_of_ne ps "Endpoint" _ "TopicArn" (by decide)),
      preserve_guardIf _ ps _ "ResourceArn" (lookup?_setParam_of_ne ps "Endpoint" _ "ResourceArn" (by decide))⟩
  · refine ⟨?_, ?_⟩ <;>
      (simp only [longEndpoint]
       cases lookup? ps "Endpoint"
       · rfl
       · exact lookup?_setParam_of_ne ps "Endpoint" _ _ (by decide))
  · refine ⟨?_, ?_⟩ <;>
      (simp only [invalidProtocol]
       cases lookup? ps "Protocol"
       · rfl
       · exact lookup?_setParam_of_ne ps "Protocol" _ _ (by decide))
  · refine ⟨?_, ?_⟩ <;>
      (simp only [removeProtocol]
       cases lookup? ps "Protocol"
       · rfl
       · exact lookup?_delParam_of_ne ps "Protocol" _ (by decide))
  · refine ⟨?_, ?_⟩ <;>
      (simp only [invalidActionName]
       cases hf : (keysOf ps).find? (startsWithStr "ActionName.member.")
       · rfl
       · exact lookup?_setParam_of_ne ps _ _ _
           (ne_of_pat (List.find?_some hf) (by decide)))
  · exact ⟨preserve_filterIf ps (startsWithStr "ActionName.member.") "TopicArn" (by decide),
      preserve_filterIf ps (startsWithStr "ActionName.member.") "ResourceArn" (by decide)⟩
  · refine ⟨?_, ?_⟩ <;>
      (simp only [invalidLabel]
       cases lookup? ps "Label"
       · rfl
       · exact lookup?_setParam_of_ne ps "Label" _ _ (by decide))
  · refine ⟨?_, ?_⟩ <;>
      (simp only [emptyLabel]
       cases lookup? ps "Label"
       · rfl
       · exact lookup?_setParam_of_ne ps "Label" _ _ (by decide))
  · refine ⟨?_, ?_⟩ <;>
      (simp only [removeLabel]
       cases lookup? ps "Label"
       · rfl
       · exact lookup?_delParam_of_ne ps "Label" _ (by decide))
  · refine ⟨?_, ?_⟩ <;>
      (simp only [specialCharLabel]
       cases lookup? ps "Label"
       · rfl
       · exact lookup?_setParam_of_ne ps "Label" _ _ (by decide))
  · refine ⟨?_, ?_⟩ <;>
      (simp only [longLabel]
       cases lookup? ps "Label"
       · rfl
       · exact lookup?_setParam_of_ne ps "Label" _ _ (by decide))
  · refine ⟨?_, ?_⟩ <;>
      (simp only [invalidAttributeName]
       cases lookup? ps "AttributeName"
       · rfl
       · exact lookup?_setParam_of_ne ps "AttributeName" _ _ (by decide))
  · refine ⟨?_, ?_⟩ <;>
      (simp only [removeAttributeName]
       cases lookup? ps "AttributeName"
       · rfl
       · exact lookup?_delParam_of_ne ps "AttributeName" _ (by decide))
  · refine ⟨?_, ?_⟩ <;>
      (simp only [longAttributeValue]
       cases lookup? ps "AttributeValue"
       · rfl
       · exact lookup?_setParam_of_ne ps "AttributeValue" _ _ (by decide))
  · exact ⟨preserve_guardIf _ ps _ "TopicArn" (lookup?_setParam_of_ne ps "AttributeValue" _ "TopicArn" (by decide)),
      preserve_guardIf _ ps _ "ResourceArn" (lookup?_setParam_of_ne ps "AttributeValue" _ "ResourceArn" (by decide))⟩
  · refine ⟨?_, ?_⟩ <;>
      (simp only [nonExistentTag]
       cases hf : (keysOf ps).find? tagKeyPat
       · rfl
       · exact lookup?_setParam_of_ne ps _ _ _
           (ne_of_pat (List.find?_some hf) (by decide)))
  · exact ⟨preserve_filterIf ps (startsWithStr "Tags.member.") "TopicArn" (by decide),
      preserve_filterIf ps (startsWithStr "Tags.member.") "ResourceArn" (by decide)⟩
  · refine ⟨?_, ?_⟩ <;>
      (simp only [emptyTagKey]
       cases hf : (keysOf ps).find? tagKeyPat
       · rfl
       · exact lookup?_setParam_of_ne ps _ _ _
           (ne_of_pat (List.find?_some hf) (by decide)))
  · refine ⟨?_, ?_⟩ <;>
      (simp only [longTagKey]
       cases hf : (keysOf ps).find? tagKeyPat
       · rfl
       · exact lookup?_setParam_of_ne ps _ _ _
           (ne_of_pat (List.find?_some hf) (by decide)))
  · exact ⟨preserve_zeroFoldIf ps tagDotPat "TopicArn" replaceTagIdx (by decide) (fun k hk => replaceTagIdx_ne k "TopicArn" hk (by decide) (by decide)),
      preserve_zeroFoldIf ps tagDotPat "ResourceArn" replaceTagIdx (by decide) (fun k hk => replaceTagIdx_ne k "ResourceArn" hk (by decide) (by decide))⟩
  · exact ⟨preserve_filterIf ps tagKeyPat "TopicArn" (by decide),
      preserve_filterIf ps tagKeyPat "ResourceArn" (by decide)⟩
  · exact ⟨preserve_filterIf ps tagValuePat "TopicArn" (by decide),
      preserve_filterIf ps tagValuePat "ResourceArn" (by decide)⟩
  · refine ⟨?_, ?_⟩ <;>
      (simp only [longTagValue]
       cases hf : (keysOf ps).find? tagValuePat
       · rfl
       · exact lookup?_setParam_of_ne ps _ _ _
           (ne_of_pat (List.find?_some hf) (by decide)))
  · refine ⟨?_, ?_⟩ <;>
      (simp only [nonExistentTagKey]
       cases hf : (keysOf ps).find? (startsWithStr "TagKeys.member.")
       · rfl
       · exact lookup?_setParam_of_ne ps _ _ _
           (ne_of_pat (List.find?_some hf) (by decide)))
  · exact ⟨preserve_filterIf ps (startsWithStr "TagKeys.member.") "TopicArn" (by decide),
      preserve_filterIf ps (startsWithStr "TagKeys.member.") "ResourceArn" (by decide)⟩
  · refine ⟨?_, ?_⟩ <;>
      (simp only [emptyTagKeys]
       cases hf : (keysOf ps).find? (startsWithStr "TagKeys.member.")
       · rfl
       · exact lookup?_setParam_of_ne ps _ _ _
           (ne_of_pat (List.find?_some hf) (by decide)))
  · refine ⟨?_, ?_⟩ <;>
      (simp only [longTagKeys]
       cases hf : (keysOf ps).find? (startsWithStr "TagKeys.member.")
       · rfl
       · exact lookup?_setParam_of_ne ps _ _ _
           (ne_of_pat (List.find?_some hf) (by decide)))
  · exact ⟨preserve_zeroFoldIf ps tagKeysNumPat "TopicArn" replaceTagKeysIdx (by decide) (fun k hk => replaceTagKeysIdx_ne k "TopicArn" hk (by decide) (by decide)),
      preserve_zeroFoldIf ps tagKeysNumPat "ResourceArn" replaceTagKeysIdx (by decide) (fun k hk => replaceTagKeysIdx_ne k "ResourceArn" hk (by decide) (by decide))⟩
  · exact ⟨preserve_guardIf _ ps _ "TopicArn" (lookup?_setParam_of_ne ps "Subject" _ "TopicArn" (by decide)),
      preserve_guardIf _ ps _ "ResourceArn" (lookup?_setParam_of_ne ps "Subject" _ "ResourceArn" (by decide))⟩
  · refine ⟨?_, ?_⟩ <;>
      (simp only [invalidJsonPolicy]
       cases lookup? ps "DataProtectionPolicy"
       · rfl
       · exact lookup?_setParam_of_ne ps "DataProtectionPolicy" _ _ (by decide))
  · refine ⟨?_, ?_⟩ <;>
      (simp only [emptyJsonPolicy]
       cases lookup? ps "DataProtectionPolicy"
       · rfl
       · exact lookup?_setParam_of_ne ps "DataProtectionPolicy" _ _ (by decide))
  · refine ⟨?_, ?_⟩ <;>
      (simp only [invalidPolicyStructure]
       cases lookup? ps "DataProtectionPolicy"
       · rfl
       · exact lookup?_setParam_of_ne ps "DataProtectionPolicy" _ _ (by decide))
  · refine ⟨?_, ?_⟩ <;>
      (simp only [removeDataProtectionPolicy]
       cases lookup? ps "DataProtectionPolicy"
       · rfl
       · exact lookup?_delParam_of_ne ps "DataProtectionPolicy" _ (by decide))


theorem c7_arn_preserved_witness :
    lookup? (endpointToArn.apply
        (Subscribe.buildParams "arn:aws:sns:us-east-1:111122223333:my-topic")
        "arn:aws:sns:us-east-1:111122223333:my-topic") "TopicArn" =
      lookup? (Subscribe.buildParams "arn:aws:sns:us-east-1:111122223333:my-topic")
        "TopicArn" ∧
    lookup? (endpointToArn.apply
        (Subscribe.buildParams "arn:aws:sns:us-east-1:111122223333:my-topic")
        "arn:aws:sns:us-east-1:111122223333:my-topic") "ResourceArn" =
      lookup? (Subscribe.buildParams "arn:aws:sns:us-east-1:111122223333:my-topic")
        "ResourceArn" :=
  c7_arn_preserved endpointToArn
    (List.mem_append_right defaultMutations
      (.tail _ (.tail _ (.tail _ (.tail _ (.tail _ (.tail _ (.head _))))))))
    (Subscribe.buildParams "arn:aws:sns:us-east-1:111122223333:my-topic")
    "arn:aws:sns:us-east-1:111122223333:my-topic"


theorem splitCh_pieces_no_sep (sep : Char) :
    ∀ (l piece : List Char), piece ∈ splitCh sep l → sep ∉ piece := by
  intro l
  induction l with
  | nil =>
    intro piece h
    simp only [splitCh, List.mem_singleton] at h
    subst h
    simp
  | cons c cs ih =>
    intro piece h
    simp only [splitCh] at h
    by_cases hc : c = sep
    · rw [if_pos hc] at h
      rcases List.mem_cons.mp h with rfl | h2
      · simp
      · exact ih piece h2
    · rw [if_neg hc] at h
      cases hs : splitCh sep cs with
      | nil =>
        rw [hs] at h
        simp only [List.mem_singleton] at h
        subst h
        simp only [List.mem_singleton]
        exact fun e => hc e.symm
      | cons r rs =>
        rw [hs] at h
        rcases List.mem_cons.mp h with rfl | h2
        · intro hmem
          rcases List.mem_cons.mp hmem with he | hr
          · exact hc he.symm
          · exact ih r (hs ▸ List.mem_cons_self r rs) hr
        · exact ih piece (hs ▸ List.mem_cons_of_mem r h2)

theorem splitCh_no_sep (sep : Char) (l : List Char) (h : sep ∉ l) :
    splitCh sep l = [l] := by
  induction l with
  | nil => rfl
  | cons c cs ih =>
    simp only [List.mem_cons, not_or] at h
    have hne : ¬(c = sep) := fun e => h.1 e.symm
    simp only [splitCh, if_neg hne, ih h.2]

theorem splitCh_append (sep : Char) (a b : List Char) (h : sep ∉ a) :
    splitCh sep (a ++ sep :: b) = a :: splitCh sep b := by
  induction a with
  | nil => simp [splitCh]
  | cons c cs ih =>
    simp only [List.mem_cons, not_or] at h
    have hne : ¬(c = sep) := fun e => h.1 e.symm
    simp only [List.cons_append, splitCh, if_neg hne, List.append_eq]
    rw [ih h.2]


theorem intercalate_single (s a : String) : String.intercalate s [a] = a := by
  simp [String.intercalate, String.intercalate.go]

theorem c8_nonexistent_arn (arn uuid : String) (p : ParsedArn)
    (hp : parseArn arn = .ok p) (hu : (':' : Char) ∉ uuid.data) :
    generateNonexistentTopicArn arn uuid =
      .ok ("arn:" ++ p.partition ++ ":sns:" ++ p.region ++ ":" ++ p.accountId ++
        ":nonexistent-" ++ uuid) ∧
    parseArn ("arn:" ++ p.partition ++ ":sns:" ++ p.region ++ ":" ++ p.accountId ++
        ":nonexistent-" ++ uuid) =
      .ok ⟨p.partition, "sns", p.region, p.accountId, "nonexistent-" ++ uuid⟩ := by
  constructor
  · simp [generateNonexistentTopicArn, hp]
  · unfold parseArn at hp
    split at hp
    · exact absurd hp (by simp)
    · split at hp
      case _ pfx partition service region accountId r1 rs heq =>
        split at hp
        · exact absurd hp (by simp)
        · split at hp
          · exact absurd hp (by simp)
          · split at hp
            · exact absurd hp (by simp)
            next hpfx hpart hserv =>
              simp only [Except.ok.injEq] at hp
              subst hp
              have hmempart : partition ∈ splitCh ':' arn.data := by
                rw [heq]; exact List.mem_cons_of_mem _ (List.mem_cons_self _ _)
              have hmemreg : region ∈ splitCh ':' arn.data := by
                rw [heq]
                exact List.mem_cons_of_mem _ (List.mem_cons_of_mem _
                  (List.mem_cons_of_mem _ (List.mem_cons_self _ _)))
              have hmemacc : accountId ∈ splitCh ':' arn.data := by
                rw [heq]
                exact List.mem_cons_of_mem _ (List.mem_cons_of_mem _
                  (List.mem_cons_of_mem _ (List.mem_cons_of_mem _
                    (List.mem_cons_self _ _))))
              have hpc := splitCh_pieces_no_sep ':' arn.data partition hmempart
              have hrc := splitCh_pieces_no_sep ':' arn.data region hmemreg
              have hac := splitCh_pieces_no_sep ':' arn.data accountId hmemacc
              have hlast : (':' : Char) ∉ "nonexistent-".data ++ uuid.data := by
                intro hmem
                rcases List.mem_append.mp hmem with hm | hm
                · exact absurd hm (by decide)
                · exact hu hm
              have h1 : ("arn:" ++ String.mk partition ++ ":sns:" ++ String.mk region ++
                  ":" ++ String.mk accountId ++ ":nonexistent-" ++ uuid).data =
                  "arn".data ++ ':' :: (partition ++ ':' :: ("sns".data ++ ':' ::
                    (region ++ ':' :: (accountId ++ ':' ::
                      ("nonexistent-".data ++ uuid.data))))) := by
                simp only [String.data_append, List.append_assoc]
                rfl
              have hsplit : splitCh ':' ("arn:" ++ String.mk partition ++ ":sns:" ++
                  String.mk region ++ ":" ++ String.mk accountId ++ ":nonexistent-" ++
                  uuid).data =
                  ["arn".data, partition, "sns".data, region, accountId,
                    "nonexistent-".data ++ uuid.data] := by
                rw [h1, splitCh_append ':' "arn".data _ (by decide),
                  splitCh_append ':' partition _ hpc,
                  splitCh_append ':' "sns".data _ (by decide),
                  splitCh_append ':' region _ hrc,
                  splitCh_append ':' accountId _ hac,
                  splitCh_no_sep ':' _ hlast]
              have hgne : ¬("arn:" ++ String.mk partition ++ ":sns:" ++
                  String.mk region ++ ":" ++ String.mk accountId ++ ":nonexistent-" ++
                  uuid = "") := by
                intro e
                have := congrArg String.data e
                rw [h1] at this
                exact absurd this (by simp)
              unfold parseArn
              rw [if_neg hgne, hsplit]
              simp only [ne_eq]
              rw [if_neg (by simp), if_neg hpart, if_neg (by decide)]
              simp only [List.map_cons, List.map_nil, intercalate_single]
              rfl
      · exact absurd hp (by simp)


theorem c8_nonexistent_arn_witness :
    generateNonexistentTopicArn "arn:aws:sns:us-east-1:123456789012:my-topic"
        "1b9d6bcd-bbfd-4b2d-9b5d-ab8dfbbd4bed" =
      .ok ("arn:" ++ "aws" ++ ":sns:" ++ "us-east-1" ++ ":" ++ "123456789012" ++
        ":nonexistent-" ++ "1b9d6bcd-bbfd-4b2d-9b5d-ab8dfbbd4bed") ∧
    parseArn ("arn:" ++ "aws" ++ ":sns:" ++ "us-east-1" ++ ":" ++ "123456789012" ++
        ":nonexistent-" ++ "1b9d6bcd-bbfd-4b2d-9b5d-ab8dfbbd4bed") =
      .ok ⟨"aws", "sns", "us-east-1", "123456789012",
        "nonexistent-" ++ "1b9d6bcd-bbfd-4b2d-9b5d-ab8dfbbd4bed"⟩ :=
  c8_nonexistent_arn "arn:aws:sns:us-east-1:123456789012:my-topic"
    "1b9d6bcd-bbfd-4b2d-9b5d-ab8dfbbd4bed"
    ⟨"aws", "sns", "us-east-1", "123456789012", "my-topic"⟩
    rfl (by decide)

end SnsBuster
